import Mathlib

/-!
Verification development for the whisper.cpp command-line client
(`whisper_client.py`).

The program is a single linear flow: parse arguments, optionally transcode
the input audio to WAV via an external tool, perform one multipart HTTP
POST, and render the JSON (or plain-text) response.  We shallowly embed the
pure parts of the program:

* Python/JSON values are modelled by the inductive `Json` (floats as exact
  rationals).  `pyFloat` models `float(value)` inside the guard of the
  formatter, including the numeric string literals CPython parses
  (`parsePyFloat`); infinity literals, on which the guarded conversion
  raises an uncaught error, are tracked by `format_raises`.
* `format_seconds` embeds the time formatter; Python `round` (banker-style
  rounding, ties to even) is `pyRound`, Python `divmod` (floor division
  with a positive divisor) is `Int.ediv`/`Int.emod`, and `f"{n:02d}"` is
  `padInt 2 n`.
* `extract_result`, `build_segments_table` (as `buildRows`) and
  the body-rendering logic of `print_result` (as `render_payload`) are embedded
  as pure functions producing a list of render events plus an optional
  uncaught Python exception name.
* The effectful `prepare_audio`/`main` skeleton is embedded as a pure
  function of an environment record, producing an exit code and an event
  trace (temporary-directory creation/cleanup, transcoder run, HTTP POST).
-/

namespace WhisperClient

/-- Model of a parsed JSON value as held by the Python program after
`response.json()`: `null` is Python `None`, objects keep field order. -/
inductive Json where
  | null
  | bool (b : Bool)
  | num (q : ℚ)
  | str (s : String)
  | arr (elems : List Json)
  | obj (fields : List (String × Json))

/-- First-match association lookup, modelling Python `dict.get(key)`
(`none` when the key is absent). Python dicts have unique keys, so
first-match agrees with dict lookup on any faithful encoding. -/
def lookupKey {α : Type} : List (String × α) → String → Option α
  | [], _ => none
  | (k, v) :: rest, key => if k = key then some v else lookupKey rest key

/-- Python truthiness of a JSON-decoded value. -/
def truthy : Json → Bool
  | .null => false
  | .bool b => b
  | .num q => q ≠ 0
  | .str s => s ≠ ""
  | .arr elems => ¬elems.isEmpty
  | .obj fields => ¬fields.isEmpty

/-- Is the value a Python `str`? -/
def Json.isStr : Json → Bool
  | .str _ => true
  | _ => false

/-- Python `str.strip()` with no arguments: remove leading and trailing
whitespace.  (Modelled over ASCII whitespace via `Char.isWhitespace`,
which covers every character appearing in the payloads considered
here.) -/
def pyStrip (s : String) : String :=
  String.mk (((s.data.dropWhile Char.isWhitespace).reverse.dropWhile Char.isWhitespace).reverse)

/-- Python `str.lower()`, as applied to path suffixes
(`file_path.suffix.lower()`).  Modelled characterwise with
`Char.toLower`, which covers the ASCII extensions of interest. -/
def pyLower (s : String) : String :=
  String.mk (s.data.map Char.toLower)

/-- Value of a list of ASCII decimal digits. -/
def natOfDigits (ds : List Char) : ℕ :=
  ds.foldl (fun acc c => 10 * acc + (c.toNat - 48)) 0

/-- Tail of a CPython `digitpart` after its first digit: digits with
single underscores allowed only between digits. -/
def digitPartTail : List Char → Bool
  | [] => true
  | ['_'] => false
  | '_' :: d :: rest => d.isDigit && digitPartTail rest
  | c :: rest => c.isDigit && digitPartTail rest

/-- A CPython `digitpart`: nonempty, starts and ends with a digit,
underscores only between digits. -/
def isDigitPart : List Char → Bool
  | [] => false
  | c :: rest => c.isDigit && digitPartTail rest

/-- Validate a `digitpart` and drop its underscore separators. -/
def parseDigitPart (cs : List Char) : Option (List Char) :=
  if isDigitPart cs then some (cs.filter (fun c => c != '_')) else none

/-- The mantissa of a float literal, `digitpart [. [digitpart]] |
. digitpart`, as an unreduced fraction (numerator, denominator with the
denominator a power of ten). -/
def parseMantissa (cs : List Char) : Option (ℕ × ℕ) :=
  match cs.span (fun c => c != '.') with
  | (intPart, []) =>
    match parseDigitPart intPart with
    | some ds => some (natOfDigits ds, 1)
    | none => none
  | (intPart, _ :: fracPart) =>
    if intPart.isEmpty && fracPart.isEmpty then none
    else if intPart.isEmpty then
      match parseDigitPart fracPart with
      | some fs => some (natOfDigits fs, 10 ^ fs.length)
      | none => none
    else if fracPart.isEmpty then
      match parseDigitPart intPart with
      | some ds => some (natOfDigits ds, 1)
      | none => none
    else
      match parseDigitPart intPart, parseDigitPart fracPart with
      | some ds, some fs =>
        some (natOfDigits ds * 10 ^ fs.length + natOfDigits fs, 10 ^ fs.length)
      | _, _ => none

/-- The exponent that follows `e`/`E`: an optionally signed `digitpart`. -/
def parseExponent (cs : List Char) : Option ℤ :=
  match cs with
  | '+' :: rest => (parseDigitPart rest).map (fun ds => (natOfDigits ds : ℤ))
  | '-' :: rest => (parseDigitPart rest).map (fun ds => -(natOfDigits ds : ℤ))
  | rest => (parseDigitPart rest).map (fun ds => (natOfDigits ds : ℤ))

/-- An unsigned CPython float literal, `mantissa [(e|E) exponent]`, as an
unreduced fraction. -/
def parseNumber (cs : List Char) : Option (ℕ × ℕ) :=
  match cs.span (fun c => c != 'e' && c != 'E') with
  | (mant, []) => parseMantissa mant
  | (mant, _ :: expPart) =>
    match parseMantissa mant, parseExponent expPart with
    | some (n, d), some ex =>
      if 0 ≤ ex then some (n * 10 ^ ex.toNat, d)
      else some (n, d * 10 ^ (-ex).toNat)
    | _, _ => none

/-- Outcome of CPython `float(s)` on a string: a finite value (kept as a
signed unreduced fraction), a signed infinity literal, a nan literal, or
a `ValueError`. -/
inductive PyFloatLit where
  | finite (num : ℤ) (den : ℕ)
  | infinite
  | nanLit
  | invalid
deriving DecidableEq

/-- Classify the optional sign and the body of a float literal. -/
def parsePyFloatCore (sgn : ℤ) (body : List Char) : PyFloatLit :=
  if body.map Char.toLower = ['i', 'n', 'f'] ∨
      body.map Char.toLower = ['i', 'n', 'f', 'i', 'n', 'i', 't', 'y'] then
    .infinite
  else if body.map Char.toLower = ['n', 'a', 'n'] then .nanLit
  else
    match parseNumber body with
    | some (n, d) => .finite (sgn * n) d
    | none => .invalid

/-- CPython `float(s)` on a string: strip surrounding whitespace, read an
optional sign, then an `inf`/`infinity`/`nan` literal (case-insensitive)
or a decimal literal with optional fraction, exponent and underscore
separators.  (Scope: ASCII digits and `Char.isWhitespace` whitespace;
the exotic Unicode digits and spaces CPython also accepts are not
modelled, and the parsed literal is represented by its exact rational
value rather than the nearest double.) -/
def parsePyFloat (s : String) : PyFloatLit :=
  match (s.data.dropWhile Char.isWhitespace).reverse.dropWhile Char.isWhitespace |>.reverse with
  | '+' :: body => parsePyFloatCore 1 body
  | '-' :: body => parsePyFloatCore (-1) body
  | body => parsePyFloatCore 1 body

/-- The guarded conversion of `format_seconds` (source line 65):
`int(round(float(value) * 1000))` inside `try ... except (TypeError,
ValueError)`.  `some q` when `float(value)` yields the finite value `q`
(numbers, booleans, and numeric string literals); `none` exactly when
the guarded expression raises a caught exception — `TypeError` at
`float()` for `None`/lists/dicts, `ValueError` at `float()` for
non-numeric strings, or `ValueError` at `round()` for a nan literal.
The one escape — an infinity literal, whose `round()` raises an uncaught
`OverflowError` — is recorded separately by `format_raises`. -/
def pyFloat : Json → Option ℚ
  | .num q => some q
  | .bool b => some (if b then 1 else 0)
  | .str s =>
    match parsePyFloat s with
    | .finite n d => some ((n : ℚ) / (d : ℚ))
    | _ => none
  | _ => none

/-- The one input class on which the formatter raises instead of
returning: a string parsing as an infinity literal, where `round(inf)`
raises an `OverflowError` that the `except (TypeError, ValueError)`
guard does not catch. -/
def format_raises (value : Option Json) : Bool :=
  match value with
  | some (.str s) =>
    match parsePyFloat s with
    | .infinite => true
    | _ => false
  | _ => false

/-- Python 3 `round` to the nearest integer, ties to even. -/
def pyRound (q : ℚ) : ℤ :=
  if q - ⌊q⌋ < 1 / 2 then ⌊q⌋
  else if 1 / 2 < q - ⌊q⌋ then ⌊q⌋ + 1
  else if ⌊q⌋ % 2 = 0 then ⌊q⌋ else ⌊q⌋ + 1

/-- Python `f"{n:0wd}"` for the widths used by the formatter: left-pad the
decimal representation with zeros up to `width` characters. -/
def padInt (width : ℕ) (n : ℤ) : String :=
  let s := toString n
  if s.length < width then String.mk (List.replicate (width - s.length) '0') ++ s else s

/-- The `divmod` chain and f-string formatting of `format_seconds`
(source lines 68–73), applied to the rounded total milliseconds.
`hours, rem = divmod(total_ms, 3600*1000)`; `minutes, rem = divmod(rem,
60*1000)`; `seconds, millis = divmod(rem, 1000)`; the intermediate
remainders are written inline instead of bound to `rem`, and `3600*1000`
and `60*1000` as the numerals `3600000` and `60000`.  On `ℤ`, `/` and `%`
are Euclidean division, which agrees with Python `divmod` for these
positive divisors. -/
def format_total_ms (total_ms : ℤ) : String :=
  if total_ms / 3600000 ≠ 0 then
    padInt 2 (total_ms / 3600000) ++ ":" ++
      padInt 2 (total_ms % 3600000 / 60000) ++ ":" ++
      padInt 2 (total_ms % 3600000 % 60000 / 1000) ++ "." ++
      padInt 3 (total_ms % 3600000 % 60000 % 1000)
  else
    padInt 2 (total_ms % 3600000 / 60000) ++ ":" ++
      padInt 2 (total_ms % 3600000 % 60000 / 1000) ++ "." ++
      padInt 3 (total_ms % 3600000 % 60000 % 1000)

/-- Embedding of `format_seconds` (source lines 61–73).  The argument is `none` for
Python `None` and `some v` for any other value; `total_ms =
int(round(float(value) * 1000))` with the caught `TypeError`/`ValueError`
cases mapped to `pyFloat v = none`.  The returned string models the
program only when `format_raises value = false`; on an infinity-literal
string the real call raises an uncaught `OverflowError` instead of
returning. -/
def format_seconds (value : Option Json) : String :=
  match value with
  | none => "-"
  | some v =>
    match pyFloat v with
    | none => "-"
    | some q => format_total_ms (pyRound (q * 1000))

/-- The formatter as worded by the spec: convert to integer milliseconds by
rounding, decompose that total into hours / minutes / seconds /
milliseconds fields, zero-pad (2 digits for H/M/S, 3 for ms), and include
the hour field exactly when it is nonzero. -/
def spec_format_ms (ms : ℤ) : String :=
  if ms / 3600000 ≠ 0 then
    padInt 2 (ms / 3600000) ++ ":" ++ padInt 2 (ms / 60000 % 60) ++ ":" ++
      padInt 2 (ms / 1000 % 60) ++ "." ++ padInt 3 (ms % 1000)
  else
    padInt 2 (ms / 60000 % 60) ++ ":" ++ padInt 2 (ms / 1000 % 60) ++ "." ++
      padInt 3 (ms % 1000)

theorem format_total_ms_eq_spec (ms : ℤ) : format_total_ms ms = spec_format_ms ms := by
  have h1 : ms % 3600000 / 60000 = ms / 60000 % 60 := by omega
  have h2 : ms % 3600000 % 60000 / 1000 = ms / 1000 % 60 := by omega
  have h3 : ms % 3600000 % 60000 % 1000 = ms % 1000 := by omega
  unfold format_total_ms spec_format_ms
  rw [h1, h2, h3]

theorem pyRound_ex1 : pyRound ((654321 : ℚ) / 10000 * 1000) = 65432 := by
  unfold pyRound
  norm_num

theorem pyRound_ex2 : pyRound ((3725 : ℚ) * 1000) = 3725000 := by
  unfold pyRound
  norm_num

theorem pyRound_ex1c :
    pyRound (((654321 : ℤ) : ℚ) / ((10000 : ℕ) : ℚ) * 1000) = 65432 := by
  unfold pyRound
  norm_num

example : format_seconds (some (.num ((654321 : ℚ) / 10000))) = "01:05.432" := by
  show format_total_ms (pyRound ((654321 : ℚ) / 10000 * 1000)) = "01:05.432"
  rw [pyRound_ex1]
  decide
example : format_seconds (some (.num 3725)) = "01:02:05.000" := by
  show format_total_ms (pyRound ((3725 : ℚ) * 1000)) = "01:02:05.000"
  rw [pyRound_ex2]
  decide
example : format_seconds (some .null) = "-" := rfl
example : format_seconds none = "-" := rfl

/-- Embedding of `extract_result` (source lines 76–82): an object carrying a `text` or
`segments` key is used directly; otherwise a `result` key holding an
object yields that object; any other payload is returned unchanged. -/
def extract_result (payload : Json) : Json :=
  match payload with
  | .obj fields =>
    if (lookupKey fields "text").isSome || (lookupKey fields "segments").isSome then
      .obj fields
    else
      match lookupKey fields "result" with
      | some (.obj inner) => .obj inner
      | _ => .obj fields
  | _ => payload

/-- One table row as rendered by `build_segments_table`: the stringified
1-based index, the formatted start and end times, and the stripped text. -/
abbrev Row := String × String × String × String

/-- What `console.print` emits for the response body: a transcript panel,
the segments table, or the raw formatted JSON panel. -/
inductive RenderEvent where
  | transcript (text : String)
  | segTable (rows : List Row)
  | rawJson (payload : Json)

/-- One iteration of the loop in `build_segments_table` (source lines
91–95): `segment.get("start")`/`.get("end")` feed `format_seconds`, and
the text cell is `(segment.get("text") or "").strip()`.  Calling `.get`
on a non-dict segment, or `.strip()` on a truthy non-string text value,
raises `AttributeError`. -/
def segRow (idx : ℕ) (segment : Json) : Except String Row :=
  match segment with
  | .obj fields =>
    match lookupKey fields "text" with
    | some t =>
      if truthy t then
        match t with
        | .str s =>
          .ok (toString idx, format_seconds (lookupKey fields "start"),
            format_seconds (lookupKey fields "end"), pyStrip s)
        | _ => .error "AttributeError"
      else
        .ok (toString idx, format_seconds (lookupKey fields "start"),
          format_seconds (lookupKey fields "end"), "")
    | none =>
      .ok (toString idx, format_seconds (lookupKey fields "start"),
        format_seconds (lookupKey fields "end"), "")
  | _ => .error "AttributeError"

/-- The rows accumulated by `build_segments_table` starting at index
`idx`; an exception from any row aborts the whole table before it is
printed. -/
def buildRowsFrom (idx : ℕ) : List Json → Except String (List Row)
  | [] => .ok []
  | segment :: rest => do
    let row ← segRow idx segment
    let rows ← buildRowsFrom (idx + 1) rest
    .ok (row :: rows)

/-- Embedding of `build_segments_table` (source lines 85–96): `enumerate(segments,
start=1)`. -/
def buildRows (segments : List Json) : Except String (List Row) :=
  buildRowsFrom 1 segments

/-- The transcript-panel step of `print_result` (source lines 121–123):
`text = result.get("text"); if text: ...Text(text.strip())...`.  Returns
the emitted events and the uncaught exception, if any (`.strip()` on a
truthy non-string raises `AttributeError`). -/
def text_events (fields : List (String × Json)) : List RenderEvent × Option String :=
  match lookupKey fields "text" with
  | some t =>
    if truthy t then
      match t with
      | .str s => ([.transcript (pyStrip s)], none)
      | _ => ([], some "AttributeError")
    else ([], none)
  | none => ([], none)

/-- The segments step of `print_result` (source lines 124–129): a
`segments` value that is a non-empty list renders the table and
returns; a raised exception while building the table aborts; anything
else falls through to the raw-JSON panel of the original payload (line
129). -/
def segments_events (payload : Json) (fields : List (String × Json)) :
    List RenderEvent × Option String :=
  match lookupKey fields "segments" with
  | some (.arr segments) =>
    if segments.isEmpty then ([.rawJson payload], none)
    else
      match buildRows segments with
      | .ok rows => ([.segTable rows], none)
      | .error e => ([], some e)
  | _ => ([.rawJson payload], none)

/-- The `isinstance(result, dict)` branch of `print_result` (source lines
120–129): the transcript step runs first; if it raised, nothing further
is rendered; otherwise the output of the segments step follows it. -/
def render_result (payload : Json) (fields : List (String × Json)) :
    List RenderEvent × Option String :=
  match (text_events fields).2 with
  | some e => ((text_events fields).1, some e)
  | none =>
    ((text_events fields).1 ++ (segments_events payload fields).1,
      (segments_events payload fields).2)

/-- The body-rendering part of `print_result` (source lines 115–129),
after the summary panel and body parsing: a plain string is shown as a
transcript panel and rendering stops; otherwise `extract_result` picks
the result object, a dict result goes through text/segments rendering,
and everything else gets the raw-JSON panel. -/
def render_payload (payload : Json) : List RenderEvent × Option String :=
  match payload with
  | .str s => ([.transcript (pyStrip s)], none)
  | _ =>
    match extract_result payload with
    | .obj fields => render_result payload fields
    | _ => ([.rawJson payload], none)

/-- The body-parsing step of `print_result` (source lines 107–113).
`content_type_json` is whether the declared `content-type` header starts
with `application/json`; `parsed` is the outcome of attempting
`response.json()` on the body (`none` when that raises
`json.JSONDecodeError`); `body_text` is `response.text`.  In the
`application/json` branch the parse is NOT guarded by `try`, so a
decode failure escapes as an exception. -/
def parse_payload (content_type_json : Bool) (parsed : Option Json)
    (body_text : String) : Except String Json :=
  if content_type_json then
    match parsed with
    | some j => .ok j
    | none => .error "JSONDecodeError"
  else
    match parsed with
    | some j => .ok j
    | none => .ok (.str body_text)

/-- The relevant parsed-argument record (`parse_args`, source lines
23–58): the decode parameters are carried already stringified
(`str(args.temperature)` etc.), `language`/`prompt` default to `None`. -/
structure Config where
  temperature : String
  temperature_inc : String
  response_format : String
  language : Option String
  prompt : Option String
  no_convert : Bool
deriving DecidableEq

/-- The environment a run of `main` observes: whether the source file
exists, its extension (`file_path.suffix`), whether `ffmpeg` is on the
PATH, whether the transcoder exits zero, whether the HTTP POST completes
at transport level, whether the response has an error status, and the
response body seen by `print_result` on an HTTP success — whether the
declared content type starts with `application/json`, the outcome of
attempting `response.json()` (`none` for a decode failure), and the raw
body text. -/
structure Env where
  file_exists : Bool
  source_suffix : String
  ffmpeg_found : Bool
  ffmpeg_exit_zero : Bool
  transport_ok : Bool
  http_is_error : Bool
  content_type_json : Bool
  parsed : Option Json
  body_text : String

/-- Observable effects of a run, in order: creation of the temporary
transcoding directory, the external transcoder run (with its success
bit), the attempted HTTP POST (with the multipart form fields and the
content type of the file part), and release of the temporary directory. -/
inductive Event where
  | tempCreate
  | ffmpegRun (ok : Bool)
  | httpPost (data : List (String × String)) (file_content_type : String)
  | tempCleanup
deriving DecidableEq

/-- Embedding of `prepare_audio` (source lines 132–195), abstracted to the decisions
it makes: the result is `some (upload_suffix, has_temp_dir)` on success
(`upload_suffix` is the extension of the returned upload path — the
original suffix for a WAV source, `".wav"` for the transcoded
`f"\x7bfile_path.stem\x7d.wav"` output) and `none` on failure, paired
with the trace of temporary-directory and transcoder events. -/
def prepare_audio (e : Env) (allow_convert : Bool) :
    Option (String × Bool) × List Event :=
  if pyLower e.source_suffix = ".wav" then (some (e.source_suffix, false), [])
  else if !allow_convert then (none, [])
  else if !e.ffmpeg_found then (none, [])
  else if e.ffmpeg_exit_zero then
    (some (".wav", true), [.tempCreate, .ffmpegRun true])
  else (none, [.tempCreate, .ffmpegRun false, .tempCleanup])

/-- The multipart form fields built by `main` (source lines 216–224):
`temperature`, `temperature_inc` and `response_format` always;
`language` and `prompt` only when truthy (present and non-empty). -/
def build_data (c : Config) : List (String × String) :=
  [("temperature", c.temperature), ("temperature_inc", c.temperature_inc),
    ("response_format", c.response_format)] ++
  (match c.language with
    | some l => if l = "" then [] else [("language", l)]
    | none => []) ++
  (match c.prompt with
    | some p => if p = "" then [] else [("prompt", p)]
    | none => [])

/-- Content type of the file part (source line 234): `"audio/wav" if
upload_path.suffix.lower() == ".wav" else "application/octet-stream"`. -/
def content_type_for (upload_suffix : String) : String :=
  if pyLower upload_suffix = ".wav" then "audio/wav" else "application/octet-stream"

/-- Does `print_result` raise an uncaught exception on this response
body?  True when the body-parsing step raises (`response.json()`
unguarded under an `application/json` header, C1) or when the rendering
itself raises (a truthy non-string `text`, C10). -/
def response_render_crashes (e : Env) : Bool :=
  match parse_payload e.content_type_json e.parsed e.body_text with
  | .error _ => true
  | .ok payload => ((render_payload payload).2).isSome

/-- Embedding of `main` (source lines 198–263) plus the process-level
effect of `raise SystemExit(main())` (line 267), abstracted to the exit
status and event trace.  The `finally` block (lines 247–249) releases
the temporary directory after the POST attempt, before the error-status
check and before `print_result`, so the trace of a run that reaches the
request is the same on the transport-failure, HTTP-error, render-crash
and success paths; only the exit status differs.  When `print_result`
raises (`response_render_crashes`), the exception propagates past
`main`, `SystemExit` is never raised, and the interpreter exits the
process with status 1. -/
def main (c : Config) (e : Env) : ℤ × List Event :=
  if !e.file_exists then (2, [])
  else
    match prepare_audio e !c.no_convert with
    | (none, events) => (2, events)
    | (some (upload_suffix, has_temp), events) =>
      let post := Event.httpPost (build_data c) (content_type_for upload_suffix)
      let cleanup : List Event := if has_temp then [.tempCleanup] else []
      let exit_status : ℤ :=
        if !e.transport_ok then 1
        else if e.http_is_error then 1
        else if response_render_crashes e then 1
        else 0
      (exit_status, events ++ [post] ++ cleanup)

/-! ### Helper lemmas -/

theorem pyRound_one_thousand : pyRound ((1 : ℚ) * 1000) = 1000 := by
  unfold pyRound
  norm_num

theorem pyRound_five_halves : pyRound ((5 : ℚ) / 2 * 1000) = 2500 := by
  unfold pyRound
  norm_num

theorem format_seconds_one : format_seconds (some (.num 1)) = "00:01.000" := by
  show format_total_ms (pyRound ((1 : ℚ) * 1000)) = "00:01.000"
  rw [pyRound_one_thousand]
  decide

theorem format_seconds_five_halves :
    format_seconds (some (.num ((5 : ℚ) / 2))) = "00:02.500" := by
  show format_total_ms (pyRound ((5 : ℚ) / 2 * 1000)) = "00:02.500"
  rw [pyRound_five_halves]
  decide

/-- Whatever the `text` field holds, the transcript step emits at most one
transcript panel (never a segment table or raw-JSON panel). -/
theorem text_events_only_transcripts (fields : List (String × Json)) :
    ∀ ev ∈ (text_events fields).1, ∃ s, ev = RenderEvent.transcript s := by
  unfold text_events
  cases lookupKey fields "text" with
  | none => simp
  | some t =>
    by_cases ht : truthy t = true
    · cases t <;> simp_all
    · simp [Bool.not_eq_true] at ht
      simp [ht]

/-- When `extract_result` produces an object, `render_payload` runs the
dict branch of `print_result` on it. -/
theorem render_payload_obj (payload : Json) (fields : List (String × Json))
    (hres : extract_result payload = .obj fields) :
    render_payload payload = render_result payload fields := by
  cases payload with
  | str s => exact absurd hres (by simp [extract_result])
  | null => simp [render_payload, hres]
  | bool b => simp [render_payload, hres]
  | num q => simp [render_payload, hres]
  | arr elems => simp [render_payload, hres]
  | obj f => simp [render_payload, hres]

/-! ### Claim theorems -/

/-- C1, counterexample: when the response declares
`content-type: application/json` and the body is not valid JSON, the
decode failure escapes `print_result` as an exception instead of being
recovered into plain-text rendering. -/
theorem parse_error_with_json_header :
    parse_payload true none "not json" = .error "JSONDecodeError" := rfl

/-- C1 (amended): the renderer always attempts to parse the body as JSON;
a parse failure is recovered locally by rendering the body as plain text
only when the declared content type does not start with
`application/json` — with that header declared, the parse failure
propagates as an unhandled `json.JSONDecodeError`. -/
theorem parse_fallback_requires_non_json_header (body : String) (j : Json) (ct : Bool) :
    parse_payload ct (some j) body = .ok j ∧
    parse_payload false none body = .ok (.str body) ∧
    render_payload (.str body) = ([.transcript (pyStrip body)], none) ∧
    parse_payload true none body = .error "JSONDecodeError" := by
  refine ⟨?_, rfl, rfl, rfl⟩
  cases ct <;> rfl

theorem parse_fallback_requires_non_json_header_witness :
    parse_payload true (some .null) "x" = .ok .null ∧
    parse_payload false none "x" = .ok (.str "x") ∧
    render_payload (.str "x") = ([.transcript (pyStrip "x")], none) ∧
    parse_payload true none "x" = .error "JSONDecodeError" :=
  parse_fallback_requires_non_json_header "x" .null true

/-- C8: a response body whose parsed JSON value is a plain string is shown
directly (stripped) as a single transcript panel; no result extraction,
segment table, or raw-JSON panel ever follows. -/
theorem string_payload_rendering (s : String) :
    render_payload (.str s) = ([.transcript (pyStrip s)], none) := rfl

theorem string_payload_rendering_witness :
    render_payload (.str " plain text ") =
      ([.transcript (pyStrip " plain text ")], none) :=
  string_payload_rendering " plain text "

/-- A segment table can only come out of the segments step when the
`segments` value is a non-empty list whose rows build without an
exception, and the rows are exactly the built ones. -/
theorem segTable_mem_segments_events (payload : Json) (fields : List (String × Json))
    (rows : List Row)
    (hmem : RenderEvent.segTable rows ∈ (segments_events payload fields).1) :
    ∃ segments, lookupKey fields "segments" = some (.arr segments) ∧ segments ≠ [] ∧
      buildRows segments = .ok rows := by
  cases hseg : lookupKey fields "segments" with
  | none => simp [segments_events, hseg] at hmem
  | some sv =>
    cases sv with
    | arr segments =>
      by_cases hemp : segments.isEmpty
      · simp [segments_events, hseg, hemp] at hmem
      · cases hrows : buildRows segments with
        | ok rows2 =>
          have hr : rows = rows2 := by
            simpa [segments_events, hseg, hemp, hrows] using hmem
          exact ⟨segments, rfl, by simpa [List.isEmpty_iff] using hemp, by rw [hrows, hr]⟩
        | error e => simp [segments_events, hseg, hemp, hrows] at hmem
    | null => simp [segments_events, hseg] at hmem
    | bool b => simp [segments_events, hseg] at hmem
    | num q => simp [segments_events, hseg] at hmem
    | str s => simp [segments_events, hseg] at hmem
    | obj inner => simp [segments_events, hseg] at hmem

/-- Conversely, a non-empty `segments` list whose rows build cleanly makes
the segments step emit exactly the table. -/
theorem segments_events_of_nonempty (payload : Json) (fields : List (String × Json))
    (segments : List Json) (rows : List Row)
    (hseg : lookupKey fields "segments" = some (.arr segments))
    (hne : segments ≠ []) (hrows : buildRows segments = .ok rows) :
    segments_events payload fields = ([.segTable rows], none) := by
  have hemp : segments.isEmpty = false := by
    cases segments with
    | nil => exact absurd rfl hne
    | cons a rest => rfl
  simp [segments_events, hseg, hemp, hrows]

/-- C3: for a rendered result object, a segment table appears exactly
when the `segments` field of the result is a non-empty list (first
conjunct, over exception-free renders); when it appears it is the last
thing rendered — no raw-JSON panel follows (second conjunct); rows carry
the stringified 1-based index, formatted start and end (dash when
absent), and the stripped text, blank when absent (third conjunct); and
the body `{"text": "hello", "segments": []}` yields a transcript panel
and no segment table, falling through to the raw-JSON panel (fourth
conjunct). -/
theorem segments_table_rendering :
    (∀ (payload : Json) (fields : List (String × Json)),
      extract_result payload = .obj fields →
      (render_payload payload).2 = none →
      ((∃ rows, RenderEvent.segTable rows ∈ (render_payload payload).1) ↔
        (∃ segments, lookupKey fields "segments" = some (.arr segments) ∧ segments ≠ []))) ∧
    (∀ (payload : Json) (fields : List (String × Json)) (segments : List Json)
      (rows : List Row),
      extract_result payload = .obj fields →
      (text_events fields).2 = none →
      lookupKey fields "segments" = some (.arr segments) →
      segments ≠ [] →
      buildRows segments = .ok rows →
      render_payload payload = ((text_events fields).1 ++ [.segTable rows], none)) ∧
    buildRows [.obj [("start", .num 1), ("text", .str " a ")], .obj [("end", .num 1)]] =
      .ok [("1", format_seconds (some (.num 1)), format_seconds none, "a"),
        ("2", format_seconds none, format_seconds (some (.num 1)), "")] ∧
    render_payload (.obj [("text", .str "hello"), ("segments", .arr [])]) =
      ([.transcript "hello",
        .rawJson (.obj [("text", .str "hello"), ("segments", .arr [])])], none) := by
  refine ⟨?_, ?_, rfl, rfl⟩
  · intro payload fields hres herr
    rw [render_payload_obj payload fields hres] at herr ⊢
    cases htev : (text_events fields).2 with
    | some e => simp [render_result, htev] at herr
    | none =>
      simp only [render_result, htev] at herr ⊢
      constructor
      · rintro ⟨rows, hmem⟩
        rw [List.mem_append] at hmem
        rcases hmem with hmem | hmem
        · have := text_events_only_transcripts fields _ hmem
          simp at this
        · obtain ⟨segments, hseg, hne, _⟩ := segTable_mem_segments_events payload fields rows hmem
          exact ⟨segments, hseg, hne⟩
      · rintro ⟨segments, hseg, hne⟩
        cases hrows : buildRows segments with
        | ok rows =>
          rw [segments_events_of_nonempty payload fields segments rows hseg hne hrows]
          exact ⟨rows, by simp⟩
        | error e =>
          exfalso
          have hemp : segments.isEmpty = false := by
            cases segments with
            | nil => exact absurd rfl hne
            | cons a rest => rfl
          rw [show segments_events payload fields = ([], some e) by
            simp [segments_events, hseg, hemp, hrows]] at herr
          simp at herr
  · intro payload fields segments rows hres htev hseg hne hrows
    rw [render_payload_obj payload fields hres]
    simp only [render_result, htev]
    rw [segments_events_of_nonempty payload fields segments rows hseg hne hrows]

theorem segments_table_rendering_witness :
    (∃ rows, RenderEvent.segTable rows ∈
      (render_payload (.obj [("text", .str "hello"), ("segments", .arr [])])).1) ↔
    (∃ segments,
      lookupKey [("text", Json.str "hello"), ("segments", Json.arr [])] "segments" =
        some (.arr segments) ∧ segments ≠ []) :=
  segments_table_rendering.1 (.obj [("text", .str "hello"), ("segments", .arr [])])
    [("text", .str "hello"), ("segments", .arr [])] rfl rfl

/-- C4: the result object is chosen by priority — a top-level object with
a `text` or `segments` key is used directly; otherwise an object held
under a `result` key is used; otherwise nothing is extracted and the
payload itself reaches the raw-JSON fallback.  Concretely,
`{"foo": "bar"}` renders as raw JSON, while
`{"result": {"text": "hi", "segments": [{"start": 1.0, "end": 2.5,
"text": " a "}]}}` renders the nested transcript and a one-row table
with start `00:01.000`, end `00:02.500` and text `"a"`. -/
theorem extract_result_priority :
    (∀ fields : List (String × Json),
      (lookupKey fields "text").isSome ∨ (lookupKey fields "segments").isSome →
      extract_result (.obj fields) = .obj fields) ∧
    (∀ (fields inner : List (String × Json)),
      lookupKey fields "text" = none →
      lookupKey fields "segments" = none →
      lookupKey fields "result" = some (.obj inner) →
      extract_result (.obj fields) = .obj inner) ∧
    (∀ fields : List (String × Json),
      lookupKey fields "text" = none →
      lookupKey fields "segments" = none →
      (∀ inner, lookupKey fields "result" ≠ some (.obj inner)) →
      render_payload (.obj fields) = ([.rawJson (.obj fields)], none)) ∧
    render_payload (.obj [("foo", .str "bar")]) =
      ([.rawJson (.obj [("foo", .str "bar")])], none) ∧
    render_payload (.obj [("result", .obj [("text", .str "hi"), ("segments",
        .arr [.obj [("start", .num 1), ("end", .num ((5 : ℚ) / 2)), ("text", .str " a ")]])])]) =
      ([.transcript "hi", .segTable [("1", "00:01.000", "00:02.500", "a")]], none) := by
  refine ⟨?_, ?_, ?_, rfl, ?_⟩
  · intro fields h
    rcases h with h | h <;> simp [extract_result, h]
  · intro fields inner htext hseg hresult
    simp [extract_result, htext, hseg, hresult]
  · intro fields htext hseg hresult
    have hres : extract_result (.obj fields) = .obj fields := by
      simp only [extract_result, htext, hseg, Option.isSome_none, Bool.or_self,
        Bool.false_eq_true, if_false]
    rw [render_payload_obj (.obj fields) fields hres]
    simp [render_result, text_events, segments_events, htext, hseg]
  · have hrfl : render_payload (.obj [("result", .obj [("text", .str "hi"), ("segments",
        .arr [.obj [("start", .num 1), ("end", .num ((5 : ℚ) / 2)), ("text", .str " a ")]])])]) =
        ([.transcript (pyStrip "hi"), .segTable [(toString 1, format_seconds (some (.num 1)),
          format_seconds (some (.num ((5 : ℚ) / 2))), pyStrip " a ")]], none) := rfl
    rw [hrfl, format_seconds_one, format_seconds_five_halves]
    have h1 : pyStrip "hi" = "hi" := rfl
    have h2 : pyStrip " a " = "a" := rfl
    have h3 : toString 1 = "1" := rfl
    rw [h1, h2, h3]

theorem extract_result_priority_witness :
    extract_result (.obj [("result", .obj [("text", .str "hi")])]) =
      .obj [("text", Json.str "hi")] :=
  extract_result_priority.2.1 [("result", .obj [("text", .str "hi")])]
    [("text", .str "hi")] rfl rfl rfl

/-- C9: `extract_result` tests key presence, not value truthiness: an
object containing a `text` or `segments` key — empty, null or otherwise
falsy — is used directly and the nested `result` object is never
consulted; `{"text": "", "result": {"text": "hi"}}` therefore renders as
raw formatted JSON rather than the nested transcript. -/
theorem extract_key_presence_not_truthiness :
    (∀ (fields : List (String × Json)) (v : Json),
      lookupKey fields "text" = some v → extract_result (.obj fields) = .obj fields) ∧
    (∀ (fields : List (String × Json)) (v : Json),
      lookupKey fields "segments" = some v → extract_result (.obj fields) = .obj fields) ∧
    render_payload (.obj [("text", .str ""), ("result", .obj [("text", .str "hi")])]) =
      ([.rawJson (.obj [("text", .str ""), ("result", .obj [("text", .str "hi")])])],
        none) := by
  refine ⟨?_, ?_, rfl⟩
  · intro fields v h
    simp [extract_result, h]
  · intro fields v h
    simp [extract_result, h]

theorem extract_key_presence_not_truthiness_witness :
    extract_result (.obj [("text", .str ""), ("result", .obj [("text", .str "hi")])]) =
      .obj [("text", .str ""), ("result", .obj [("text", Json.str "hi")])] :=
  extract_key_presence_not_truthiness.1
    [("text", .str ""), ("result", .obj [("text", .str "hi")])] (.str "") rfl

/-- C10: the renderer assumes a truthy `text` field is a string — if the
`text` value of the result object is truthy but not a string, the strip call
raises an uncaught `AttributeError` and no body output is produced. -/
theorem truthy_nonstring_text_raises (payload : Json) (fields : List (String × Json))
    (t : Json)
    (hres : extract_result payload = .obj fields)
    (ht : lookupKey fields "text" = some t)
    (htr : truthy t = true)
    (hstr : t.isStr = false) :
    render_payload payload = ([], some "AttributeError") := by
  have htev : text_events fields = ([], some "AttributeError") := by
    cases t with
    | str s => simp [Json.isStr] at hstr
    | null => simp [truthy] at htr
    | bool b => simp [text_events, ht, htr]
    | num q => simp [text_events, ht, htr]
    | arr elems => simp [text_events, ht, htr]
    | obj f => simp [text_events, ht, htr]
  rw [render_payload_obj payload fields hres]
  simp [render_result, htev]

theorem truthy_nonstring_text_raises_witness :
    render_payload (.obj [("text", .num 5)]) = ([], some "AttributeError") :=
  truthy_nonstring_text_raises (.obj [("text", .num 5)]) [("text", .num 5)] (.num 5)
    rfl rfl (by decide) rfl

/-- The run reaches the HTTP request exactly when the file exists and
audio preparation succeeds: the source is WAV, or conversion is allowed
and the transcoder is found and exits zero. -/
def reaches_request (c : Config) (e : Env) : Prop :=
  e.file_exists = true ∧
    (pyLower e.source_suffix = ".wav" ∨
      (c.no_convert = false ∧ e.ffmpeg_found = true ∧ e.ffmpeg_exit_zero = true))

/-- C5, counterexample: a run that reaches the request, succeeds at
transport level and gets a non-error HTTP status — an HTTP success —
can still exit with status 1 rather than 0: with an `application/json`
content type and a body that fails to decode, `print_result` raises an
uncaught `json.JSONDecodeError` and the interpreter ends the process
with status 1. -/
theorem http_success_render_crash_exits_one :
    main ⟨"0.0", "0.2", "json", none, none, false⟩
      ⟨true, ".wav", true, true, true, false, true, none, "not json"⟩ =
    (1, [Event.httpPost (build_data ⟨"0.0", "0.2", "json", none, none, false⟩)
      (content_type_for ".wav")]) := by decide

/-- C5 (amended): the exit status is 2 for a missing source file, for a
non-WAV source with conversion disabled (with an empty event trace — no
HTTP request is performed), for a missing transcoder, and for a
transcoding failure; once the request is reached, it is 1 on a transport
failure or an HTTP error status; on an HTTP success it is 0 when the
response also renders without raising, and 1 — via the uncaught
exception reaching the interpreter, not a return path — when rendering
raises. -/
theorem main_exit_codes (c : Config) (e : Env) :
    (e.file_exists = false → main c e = (2, [])) ∧
    (e.file_exists = true → pyLower e.source_suffix ≠ ".wav" → c.no_convert = true →
      main c e = (2, [])) ∧
    (e.file_exists = true → pyLower e.source_suffix ≠ ".wav" → c.no_convert = false →
      e.ffmpeg_found = false → main c e = (2, [])) ∧
    (e.file_exists = true → pyLower e.source_suffix ≠ ".wav" → c.no_convert = false →
      e.ffmpeg_found = true → e.ffmpeg_exit_zero = false →
      main c e = (2, [.tempCreate, .ffmpegRun false, .tempCleanup])) ∧
    (reaches_request c e → e.transport_ok = false → (main c e).1 = 1) ∧
    (reaches_request c e → e.transport_ok = true → e.http_is_error = true →
      (main c e).1 = 1) ∧
    (reaches_request c e → e.transport_ok = true → e.http_is_error = false →
      response_render_crashes e = false → (main c e).1 = 0) ∧
    (reaches_request c e → e.transport_ok = true → e.http_is_error = false →
      response_render_crashes e = true → (main c e).1 = 1) := by
  refine ⟨?_, ?_, ?_, ?_, ?_, ?_, ?_, ?_⟩
  · intro h
    simp [main, h]
  · intro hfe hw hnc
    simp [main, prepare_audio, hfe, hw, hnc]
  · intro hfe hw hnc hff
    simp [main, prepare_audio, hfe, hw, hnc, hff]
  · intro hfe hw hnc hff hfz
    simp [main, prepare_audio, hfe, hw, hnc, hff, hfz]
  · rintro ⟨hfe, hcase⟩ htr
    by_cases hw : pyLower e.source_suffix = ".wav"
    · simp [main, prepare_audio, hfe, hw, htr]
    · rcases hcase with hw2 | ⟨hnc, hff, hfz⟩
      · exact absurd hw2 hw
      · simp [main, prepare_audio, hfe, hw, hnc, hff, hfz, htr]
  · rintro ⟨hfe, hcase⟩ htr herr
    by_cases hw : pyLower e.source_suffix = ".wav"
    · simp [main, prepare_audio, hfe, hw, htr, herr]
    · rcases hcase with hw2 | ⟨hnc, hff, hfz⟩
      · exact absurd hw2 hw
      · simp [main, prepare_audio, hfe, hw, hnc, hff, hfz, htr, herr]
  · rintro ⟨hfe, hcase⟩ htr herr hcr
    by_cases hw : pyLower e.source_suffix = ".wav"
    · simp [main, prepare_audio, hfe, hw, htr, herr, hcr]
    · rcases hcase with hw2 | ⟨hnc, hff, hfz⟩
      · exact absurd hw2 hw
      · simp [main, prepare_audio, hfe, hw, hnc, hff, hfz, htr, herr, hcr]
  · rintro ⟨hfe, hcase⟩ htr herr hcr
    by_cases hw : pyLower e.source_suffix = ".wav"
    · simp [main, prepare_audio, hfe, hw, htr, herr, hcr]
    · rcases hcase with hw2 | ⟨hnc, hff, hfz⟩
      · exact absurd hw2 hw
      · simp [main, prepare_audio, hfe, hw, hnc, hff, hfz, htr, herr, hcr]

theorem main_exit_codes_witness :
    main ⟨"0.0", "0.2", "json", none, none, true⟩
      ⟨true, ".m4a", true, true, true, false, false, none, ""⟩ = (2, []) ∧
    (main ⟨"0.0", "0.2", "json", none, none, false⟩
      ⟨true, ".wav", true, true, true, false, false,
        some (.obj [("text", .str "hi")]), ""⟩).1 = 0 :=
  ⟨(main_exit_codes ⟨"0.0", "0.2", "json", none, none, true⟩
      ⟨true, ".m4a", true, true, true, false, false, none, ""⟩).2.1 rfl (by decide) rfl,
   (main_exit_codes ⟨"0.0", "0.2", "json", none, none, false⟩
      ⟨true, ".wav", true, true, true, false, false,
        some (.obj [("text", .str "hi")]), ""⟩).2.2.2.2.2.2.1
     ⟨rfl, Or.inl (by decide)⟩ rfl rfl (by decide)⟩

/-- C6: whenever the temporary transcoding directory is created it is also
released, on the transcoding-failure, transport-error, HTTP-error and
success paths alike; on the transcoder-failure path it is released
immediately, before the failure exit; a WAV source (or a run that never
converts) creates no temporary resource. -/
theorem temp_dir_lifecycle (c : Config) (e : Env) :
    (Event.tempCreate ∈ (main c e).2 → Event.tempCleanup ∈ (main c e).2) ∧
    (pyLower e.source_suffix = ".wav" → e.file_exists = true →
      (main c e).2 = [.httpPost (build_data c) (content_type_for e.source_suffix)]) ∧
    (e.file_exists = false → (main c e).2 = []) ∧
    (e.file_exists = true → pyLower e.source_suffix ≠ ".wav" → c.no_convert = false →
      e.ffmpeg_found = true → e.ffmpeg_exit_zero = false →
      main c e = (2, [.tempCreate, .ffmpegRun false, .tempCleanup])) ∧
    (e.file_exists = true → pyLower e.source_suffix ≠ ".wav" → c.no_convert = false →
      e.ffmpeg_found = true → e.ffmpeg_exit_zero = true →
      (main c e).2 = [.tempCreate, .ffmpegRun true,
        .httpPost (build_data c) (content_type_for ".wav"), .tempCleanup]) := by
  refine ⟨?_, ?_, ?_, ?_, ?_⟩
  · intro hmem
    by_cases hfe : e.file_exists = true
    · by_cases hw : pyLower e.source_suffix = ".wav"
      · by_cases htr : e.transport_ok = true <;> by_cases herr : e.http_is_error = true <;>
          simp [main, prepare_audio, hfe, hw, htr, herr] at hmem
      · by_cases hnc : c.no_convert = true
        · simp [main, prepare_audio, hfe, hw, hnc] at hmem
        · rw [Bool.not_eq_true] at hnc
          by_cases hff : e.ffmpeg_found = true
          · by_cases hfz : e.ffmpeg_exit_zero = true
            · by_cases htr : e.transport_ok = true <;>
                by_cases herr : e.http_is_error = true <;>
                simp [main, prepare_audio, hfe, hw, hnc, hff, hfz, htr, herr]
            · rw [Bool.not_eq_true] at hfz
              simp [main, prepare_audio, hfe, hw, hnc, hff, hfz]
          · rw [Bool.not_eq_true] at hff
            simp [main, prepare_audio, hfe, hw, hnc, hff] at hmem
    · rw [Bool.not_eq_true] at hfe
      simp [main, hfe] at hmem
  · intro hw hfe
    by_cases htr : e.transport_ok = true <;> by_cases herr : e.http_is_error = true <;>
      simp [main, prepare_audio, hfe, hw, htr, herr]
  · intro hfe
    simp [main, hfe]
  · intro hfe hw hnc hff hfz
    simp [main, prepare_audio, hfe, hw, hnc, hff, hfz]
  · intro hfe hw hnc hff hfz
    by_cases htr : e.transport_ok = true <;> by_cases herr : e.http_is_error = true <;>
      simp [main, prepare_audio, hfe, hw, hnc, hff, hfz, htr, herr]

theorem temp_dir_lifecycle_witness :
    Event.tempCleanup ∈ (main ⟨"0.0", "0.2", "json", none, none, false⟩
      ⟨true, ".m4a", true, false, true, false, false, none, ""⟩).2 :=
  (temp_dir_lifecycle ⟨"0.0", "0.2", "json", none, none, false⟩
    ⟨true, ".m4a", true, false, true, false, false, none, ""⟩).1 (by decide)

/-- C7: every HTTP POST that the run performs carries exactly the built
multipart form and the content type `audio/wav` (a WAV source keeps its
own path, a transcoded source uploads the `.wav` output, and both have
suffix `.wav` up to case); the form always holds `temperature`,
`temperature_inc` and `response_format`, and holds `language`/`prompt`
exactly when they are non-empty; the content type of the file part is
`audio/wav` exactly for a (case-insensitive) `.wav` upload suffix and
the generic octet-stream type otherwise. -/
theorem multipart_form_contents :
    (∀ (c : Config) (e : Env) (data : List (String × String)) (ct : String),
      Event.httpPost data ct ∈ (main c e).2 → data = build_data c ∧ ct = "audio/wav") ∧
    (∀ c : Config, lookupKey (build_data c) "temperature" = some c.temperature ∧
      lookupKey (build_data c) "temperature_inc" = some c.temperature_inc ∧
      lookupKey (build_data c) "response_format" = some c.response_format) ∧
    (∀ (c : Config) (l : String),
      lookupKey (build_data c) "language" = some l ↔ c.language = some l ∧ l ≠ "") ∧
    (∀ (c : Config) (p : String),
      lookupKey (build_data c) "prompt" = some p ↔ c.prompt = some p ∧ p ≠ "") ∧
    (∀ s : String, pyLower s = ".wav" → content_type_for s = "audio/wav") ∧
    (∀ s : String, pyLower s ≠ ".wav" → content_type_for s = "application/octet-stream") := by
  refine ⟨?_, ?_, ?_, ?_, ?_, ?_⟩
  · intro c e data ct hmem
    by_cases hfe : e.file_exists = true
    · by_cases hw : pyLower e.source_suffix = ".wav"
      · by_cases htr : e.transport_ok = true <;> by_cases herr : e.http_is_error = true <;>
          simp [main, prepare_audio, hfe, hw, htr, herr, content_type_for] at hmem <;>
          exact hmem
      · by_cases hnc : c.no_convert = true
        · simp [main, prepare_audio, hfe, hw, hnc] at hmem
        · rw [Bool.not_eq_true] at hnc
          by_cases hff : e.ffmpeg_found = true
          · by_cases hfz : e.ffmpeg_exit_zero = true
            · by_cases htr : e.transport_ok = true <;>
                by_cases herr : e.http_is_error = true <;>
                simp [main, prepare_audio, hfe, hw, hnc, hff, hfz, htr, herr,
                  content_type_for] at hmem <;>
                exact hmem
            · rw [Bool.not_eq_true] at hfz
              simp [main, prepare_audio, hfe, hw, hnc, hff, hfz] at hmem
          · rw [Bool.not_eq_true] at hff
            simp [main, prepare_audio, hfe, hw, hnc, hff] at hmem
    · rw [Bool.not_eq_true] at hfe
      simp [main, hfe] at hmem
  · intro c
    exact ⟨rfl, rfl, rfl⟩
  · intro c l
    cases hl : c.language with
    | none =>
      cases hp : c.prompt with
      | none => simp [build_data, lookupKey, hl, hp]
      | some p =>
        by_cases hpe : p = "" <;> simp [build_data, lookupKey, hl, hp, hpe]
    | some l2 =>
      by_cases hle : l2 = ""
      · cases hp : c.prompt with
        | none =>
          simp [build_data, lookupKey, hl, hle, hp]
          exact fun h => h.symm
        | some p =>
          by_cases hpe : p = "" <;> simp [build_data, lookupKey, hl, hle, hp, hpe] <;>
            exact fun h => h.symm
      · simp [build_data, lookupKey, hl, hle]
        exact fun h => h ▸ hle
  · intro c p
    cases hp : c.prompt with
    | none =>
      cases hl : c.language with
      | none => simp [build_data, lookupKey, hp, hl]
      | some l =>
        by_cases hle : l = "" <;> simp [build_data, lookupKey, hp, hl, hle]
    | some p2 =>
      by_cases hpe : p2 = ""
      · cases hl : c.language with
        | none =>
          simp [build_data, lookupKey, hp, hpe, hl]
          exact fun h => h.symm
        | some l =>
          by_cases hle : l = "" <;> simp [build_data, lookupKey, hp, hpe, hl, hle] <;>
            exact fun h => h.symm
      · cases hl : c.language with
        | none =>
          simp [build_data, lookupKey, hp, hpe, hl]
          exact fun h => h ▸ hpe
        | some l =>
          by_cases hle : l = "" <;>
            simp [build_data, lookupKey, hp, hpe, hl, hle] <;>
            exact fun h => h ▸ hpe
  · intro s h
    simp [content_type_for, h]
  · intro s h
    simp [content_type_for, h]

theorem multipart_form_contents_witness :
    lookupKey (build_data ⟨"0.0", "0.2", "json", some "en", none, false⟩) "language" =
      some "en" ∧
    ((build_data ⟨"0.0", "0.2", "json", some "en", none, false⟩ : List (String × String)) =
        build_data ⟨"0.0", "0.2", "json", some "en", none, false⟩ ∧
      ("audio/wav" : String) = "audio/wav") :=
  ⟨(multipart_form_contents.2.2.1 ⟨"0.0", "0.2", "json", some "en", none, false⟩
      "en").mpr ⟨rfl, by decide⟩,
   multipart_form_contents.1 ⟨"0.0", "0.2", "json", some "en", none, false⟩
     ⟨true, ".wav", true, true, true, false, false, none, ""⟩
     (build_data ⟨"0.0", "0.2", "json", some "en", none, false⟩) "audio/wav" (by decide)⟩

end WhisperClient
